import Mathlib

/-!
Shallow embedding of `src/etl_file_tools/file_load_dataframe.py`.

The source wraps a pandas DataFrame in a `FileFrame` class that owns a list of
constraint closures and a parallel list of `_Constraint` descriptors.  The
embedding below models:

  * a table (`Table`) as an ordered header plus row-major cells, a cell being
    `Option Val` where `none` stands for a pandas null (NaN / None);
  * each constraint closure as a value of the inductive `CFun`: the Python
    closures are fully determined by their captured parameters, which is what
    `FileFrame._get_constraint_closure_function_details` introspects;
  * closure object identity (Python `!=` on function objects) as a numeric
    `id` carried next to the `CFun` in `Closure`;
  * `ValueError` messages as the `Violation` inductive, tagged per the
    distinct `raise` sites of the source and carrying the data interpolated
    into the message;
  * the stateful methods (`add_constraint`, `remove_constraint`,
    `_validate_constraints`, `read_dict`) as explicit state-passing functions
    returning the new `FileFrame` and an optional raised violation.

Out of modelled scope (no claim depends on it): a constraint naming a column
absent from the table raises `KeyError` in pandas; here a missing column reads
as all-null.  Ordering comparisons between an `Int` and a `String` value raise
`TypeError` in pandas; here they are `false`.
-/

namespace EtlFileTools

/-- A scalar value held in a table cell or used as a comparison / default
value (`int | str | float` in the source; floats are exercised by no claim,
so the model carries integers and strings). -/
inductive Val where
  | int (n : Int)
  | str (s : String)
deriving DecidableEq, Repr

/-- A table cell: `none` is a pandas null (NaN / None). -/
abbrev Cell := Option Val

/-- A pandas DataFrame, modelled as an ordered header and row-major cells. -/
structure Table where
  header : List String
  rows : List (List Cell)
deriving DecidableEq, Repr

/-- Index of a column in the header (`header.length` when absent, which makes
every access below read null — the source would raise `KeyError`). -/
def colIndex (t : Table) (c : String) : Nat :=
  t.header.indexOf c

/-- The cell of row `r` in column `c`. -/
def cellAt (t : Table) (r : List Cell) (c : String) : Cell :=
  r.getD (colIndex t c) none

/-- The values of column `c`, top to bottom (`dataframe[c]`). -/
def column (t : Table) (c : String) : List Cell :=
  t.rows.map (fun r => cellAt t r c)

/-- The key of one row restricted to `cols` (one row of `dataframe[cols]`). -/
def keyOfRow (t : Table) (cols : List String) (r : List Cell) : List Cell :=
  cols.map (fun c => cellAt t r c)

/-- The per-row keys over `cols` (`dataframe[cols]`, as a list of rows). -/
def keyRows (t : Table) (cols : List String) : List (List Cell) :=
  t.rows.map (fun r => keyOfRow t cols r)

/-- Source `dataframe[cols].isnull().any(axis=1).any()`: some row has a null in some
column of `cols`. -/
def anyNullInKey (t : Table) (cols : List String) : Bool :=
  t.rows.any (fun r => (keyOfRow t cols r).any (fun cell => cell.isNone))

/-- Source `any(dataframe.duplicated(subset=cols))`: some key occurs in two distinct
rows.  pandas `duplicated` treats nulls as equal to each other, which the
plain equality on `Cell = Option Val` mirrors. -/
def duplicatedAny : List (List Cell) → Bool
  | [] => false
  | k :: ks => ks.contains k || duplicatedAny ks

/-- The nine distinct `raise ValueError` sites of the source, tagged and
carrying the data interpolated into the message. -/
inductive Violation where
  | notNull (column_name : String)
  | primaryKeyNull (column_names : List String)
  | primaryKeyDuplicate (column_names : List String)
  | uniqueDuplicate (column_names : List String)
  | checkFailed (column_name : String) (condition : String) ( check_value : Val)
  | unsupportedOperator (condition : String)
  | duplicatePrimaryKey
  | primaryKeyNotNullConflict (column_name : String)
  | duplicateConstraint (constraint_name : String)
deriving DecidableEq, Repr

/-- A constraint closure, identified by its captured parameters.  Each
constructor corresponds to one inner `def ..._constraint(dataframe)` of the
factory classmethods; the constructor name is the Python `__name__` without
the `_constraint` suffix. -/
inductive CFun where
  | not_null (column_name : String)
  | primary_key (column_names : List String)
  | unique (column_names : List String)
  | check (column_name : String) (check_condition : String) ( check_value : Val)
  | default_value (column_name : String) ( default_value : Val)
deriving DecidableEq, Repr

/-- Method `FileFrame.constraint_not_null`: builds the `not_null_constraint`
closure.  The builder itself never fails. -/
def constraint_not_null (column_name : String) : CFun :=
  CFun.not_null column_name

/-- Method `FileFrame.constraint_primary_key`: builds the `primary_key_constraint`
closure. -/
def constraint_primary_key (column_names : List String) : CFun :=
  CFun.primary_key column_names

/-- Method `FileFrame.constraint_unique`: builds the `unique_constraint` closure. -/
def constraint_unique (column_names : List String) : CFun :=
  CFun.unique column_names

/-- Method `FileFrame.constraint_check`: builds the `check_constraint` closure.  The
builder body is a single `def` plus `return`: it performs no validation of
`check_condition`, so construction always succeeds. -/
def constraint_check (column_name : String) (check_condition : String) ( check_value : Val) : CFun :=
  CFun.check column_name check_condition check_value

/-- Method `FileFrame.constraint_default_value`: builds the
`default_value_constraint` closure (the `kwargs` cell is not modelled; no
claim exercises fill options). -/
def constraint_default_value (column_name : String) ( default_value : Val) : CFun :=
  CFun.default_value column_name default_value

/-- Strict order on values, as pandas `<` on series elements: `Int` against
`Int`, `String` against `String` lexicographically; a mixed comparison raises
`TypeError` in pandas and is unmodelled (`false` here, unused by any claim). -/
def valLt : Val → Val → Bool
  | Val.int a, Val.int b => decide (a < b)
  | Val.str a, Val.str b => decide (a < b)
  | _, _ => false

/-- Non-strict order on values, with the same scope note as `valLt`. -/
def valLe : Val → Val → Bool
  | Val.int a, Val.int b => decide (a ≤ b)
  | Val.str a, Val.str b => decide (a ≤ b)
  | _, _ => false

/-- Elementwise `series == v` on one element: a null compares unequal to everything. -/
def cellEq (cell : Cell) (v : Val) : Bool :=
  match cell with
  | some x => decide (x = v)
  | none => false

/-- Elementwise `series != v` on one element: a null is reported as different. -/
def cellNe (cell : Cell) (v : Val) : Bool :=
  match cell with
  | some x => decide (x ≠ v)
  | none => true

/-- Elementwise `series > v` on one element: `false` on a null. -/
def cellGt (cell : Cell) (v : Val) : Bool :=
  match cell with
  | some x => valLt v x
  | none => false

/-- Elementwise `series < v` on one element: `false` on a null. -/
def cellLt (cell : Cell) (v : Val) : Bool :=
  match cell with
  | some x => valLt x v
  | none => false

/-- Elementwise `series >= v` on one element: `false` on a null. -/
def cellGe (cell : Cell) (v : Val) : Bool :=
  match cell with
  | some x => valLe v x
  | none => false

/-- Elementwise `series <= v` on one element: `false` on a null. -/
def cellLe (cell : Cell) (v : Val) : Bool :=
  match cell with
  | some x => valLe x v
  | none => false

/-- Python `str.upper()` over the condition string (`Char.toUpper` is the
ASCII upper-casing; the six operator strings and their variants are ASCII). -/
def pyUpper (s : String) : String :=
  String.mk (s.data.map Char.toUpper)

/-- Python `str.strip()`: drop leading and trailing whitespace. -/
def pyStrip (s : String) : String :=
  String.mk (((s.data.dropWhile Char.isWhitespace).reverse.dropWhile Char.isWhitespace).reverse)

/-- Body of the `check_constraint` closure: normalises the captured condition
with `.upper().strip()` at each branch, tests all values of the column, and
raises `Unsupported equality condition` when no branch matches. -/
def check_constraint_apply (column_name : String) (check_condition : String) ( check_value : Val) (t : Table) : Except Violation Table :=
  if pyStrip (pyUpper check_condition) = "=" then
    if (column t column_name).all (fun cell => cellEq cell check_value) then Except.ok t
    else Except.error (Violation.checkFailed column_name "=" check_value)
  else if pyStrip (pyUpper check_condition) = ">" then
    if (column t column_name).all (fun cell => cellGt cell check_value) then Except.ok t
    else Except.error (Violation.checkFailed column_name ">" check_value)
  else if pyStrip (pyUpper check_condition) = "<" then
    if (column t column_name).all (fun cell => cellLt cell check_value) then Except.ok t
    else Except.error (Violation.checkFailed column_name "<" check_value)
  else if pyStrip (pyUpper check_condition) = ">=" then
    if (column t column_name).all (fun cell => cellGe cell check_value) then Except.ok t
    else Except.error (Violation.checkFailed column_name ">=" check_value)
  else if pyStrip (pyUpper check_condition) = "<=" then
    if (column t column_name).all (fun cell => cellLe cell check_value) then Except.ok t
    else Except.error (Violation.checkFailed column_name "<=" check_value)
  else if pyStrip (pyUpper check_condition) = "!=" then
    if (column t column_name).all (fun cell => cellNe cell check_value) then Except.ok t
    else Except.error (Violation.checkFailed column_name "!=" check_value)
  else
    Except.error (Violation.unsupportedOperator check_condition)

/-- Body of the `default_value_constraint` closure:
`dataframe[c] = dataframe[c].fillna(value=v)`, replacing every null of the
column in place. -/
def fillnaColumn (t : Table) (column_name : String) ( default_value : Val) : Table :=
  let i := colIndex t column_name
  { t with rows := t.rows.map (fun r =>
      match r.getD i none with
      | none => r.set i (some default_value)
      | some _ => r) }

/-- Applying one constraint closure to a table: `Except.error` is the
closure raising `ValueError`; the returned table is the (possibly mutated)
DataFrame object the closure was handed. -/
def applyConstraint : CFun → Table → Except Violation Table
  | CFun.not_null c, t =>
    if (column t c).any (fun cell => cell.isNone) then Except.error (Violation.notNull c)
    else Except.ok t
  | CFun.primary_key cols, t =>
    if anyNullInKey t cols then Except.error (Violation.primaryKeyNull cols)
    else if duplicatedAny (keyRows t cols) then Except.error (Violation.primaryKeyDuplicate cols)
    else Except.ok t
  | CFun.unique cols, t =>
    if duplicatedAny (keyRows t cols) then Except.error (Violation.uniqueDuplicate cols)
    else Except.ok t
  | CFun.check c cond v, t => check_constraint_apply c cond v t
  | CFun.default_value c v, t => Except.ok (fillnaColumn t c v)

/-- The `_Constraint` frozen dataclass: equality (the derived one) compares
all six fields, unset fields holding their defaults (`[]` / `None`). -/
structure _Constraint where
  constraint_name : String
  column_names : List String := []
  column_name : Option String := none
  check_condition : Option String := none
  check_value : Option Val := none
  default_value : Option Val := none
deriving DecidableEq, Repr

/-- Method `FileFrame._get_constraint_closure_function_details`: rebuilds a
`_Constraint` from the closure `__name__` and captured cells (the `kwargs`
cell of `default_value_constraint` is skipped by the source). -/
def _get_constraint_closure_function_details : CFun → _Constraint
  | CFun.not_null c =>
    { constraint_name := "not_null_constraint", column_name := some c }
  | CFun.primary_key cols =>
    { constraint_name := "primary_key_constraint", column_names := cols }
  | CFun.unique cols =>
    { constraint_name := "unique_constraint", column_names := cols }
  | CFun.check c cond v =>
    { constraint_name := "check_constraint", column_name := some c,
      check_condition := some cond, check_value := some v }
  | CFun.default_value c v =>
    { constraint_name := "default_value_constraint", column_name := some c,
      default_value := some v }

/-- A closure object: the captured parameters plus an object identity.  Two
calls of a factory classmethod return distinct function objects even with
equal parameters, so Python `==` / `!=` on them (identity based) is modelled
by `id` equality. -/
structure Closure where
  id : Nat
  fn : CFun
deriving DecidableEq, Repr

/-- The closure cell condition of the second `add_constraint` check:
`input_constraint.column_name in constraint.column_names`. -/
def columnNameCovered (input d : _Constraint) : Bool :=
  match input.column_name with
  | some c => d.column_names.contains c
  | none => false

/-- The loop body of `FileFrame.add_constraint`: walk the existing
descriptors in registration order; for each, the duplicate-primary-key check,
then the primary-key-not-null check, then the full-equality check; the first
hit raises. -/
def checkAgainst (input : _Constraint) : List _Constraint → Option Violation
  | [] => none
  | d :: rest =>
    if input.constraint_name = "primary_key_constraint" ∧ d.constraint_name = "primary_key_constraint" then
      some Violation.duplicatePrimaryKey
    else if input.constraint_name = "not_null_constraint" ∧ d.constraint_name = "primary_key_constraint"
        ∧ columnNameCovered input d = true then
      some (Violation.primaryKeyNotNullConflict (input.column_name.getD ""))
    else if input = d then
      some (Violation.duplicateConstraint input.constraint_name)
    else
      checkAgainst input rest

/-- The `FileFrame` object state: the wrapped DataFrame and the two parallel
ordered lists. -/
structure FileFrame where
  _dataframe : Table
  _constraints : List Closure
  _constraint_details : List _Constraint
deriving DecidableEq, Repr

/-- Method `FileFrame.add_constraint`: reconstruct the descriptor, run the check
loop (raising leaves the lists untouched), and only then append the closure
and the descriptor to the two lists. -/
def add_constraint (s : FileFrame) (f : Closure) : FileFrame × Option Violation :=
  match checkAgainst (_get_constraint_closure_function_details f.fn) s._constraint_details with
  | some e => (s, some e)
  | none =>
    ({ s with _constraints := s._constraints ++ [f],
              _constraint_details := s._constraint_details
                ++ [_get_constraint_closure_function_details f.fn] }, none)

/-- Method `FileFrame.remove_constraint`: the closure list keeps every function
object other than `constraint_func` (identity comparison), while the
descriptor list keeps every descriptor that differs by value from the
reconstructed one. -/
def remove_constraint (s : FileFrame) (f : Closure) : FileFrame :=
  { s with
    _constraints := s._constraints.filter (fun g => decide (g.id ≠ f.id)),
    _constraint_details := s._constraint_details.filter
      (fun d => decide (d ≠ _get_constraint_closure_function_details f.fn)) }

/-- Method `FileFrame._validate_constraints`: apply every registered closure, in
list order, to the current DataFrame; the first raise aborts the loop,
leaving the DataFrame as mutated by the closures already run. -/
def _validate_constraints : List Closure → Table → Table × Option Violation
  | [], t => (t, none)
  | c :: rest, t =>
    match applyConstraint c.fn t with
    | Except.ok t2 => _validate_constraints rest t2
    | Except.error e => (t, some e)

/-- Method `FileFrame.read_dict`: replace `_dataframe` with the new data, then run
`_validate_constraints`; whatever table the run ends with (defaults applied
up to a failing constraint) stays as `_dataframe`, and the raise, if any, is
surfaced. -/
def read_dict (s : FileFrame) (d : Table) : FileFrame × Option Violation :=
  ({ s with _dataframe := (_validate_constraints s._constraints d).1 },
   (_validate_constraints s._constraints d).2)

/-- The `FileFrame` states reachable through the public API: construction
with any seed data, adding (successfully or not), removing, and loading. -/
inductive Reachable : FileFrame → Prop where
  | init (t : Table) : Reachable ⟨t, [], []⟩
  | addC (s : FileFrame) (f : Closure) : Reachable s → Reachable (add_constraint s f).1
  | removeC (s : FileFrame) (f : Closure) : Reachable s → Reachable (remove_constraint s f)
  | loadC (s : FileFrame) (d : Table) : Reachable s → Reachable (read_dict s d).1

/-! ## Helper lemmas -/

/-- Predicate `duplicatedAny` holds exactly when the key list has a repetition. -/
theorem duplicatedAny_iff_not_nodup (l : List (List Cell)) :
    duplicatedAny l = true ↔ ¬ l.Nodup := by
  induction l with
  | nil => simp [duplicatedAny]
  | cons x xs ih =>
    simp only [duplicatedAny, List.nodup_cons, Bool.or_eq_true, List.elem_iff,
      ih, not_and_or, not_not]

/-- Predicate `duplicatedAny` holds exactly when two distinct row positions carry the
same key. -/
theorem duplicatedAny_iff_exists_pair (l : List (List Cell)) :
    duplicatedAny l = true ↔ ∃ i j : Fin l.length, i < j ∧ l.get i = l.get j := by
  rw [duplicatedAny_iff_not_nodup, List.Nodup, List.pairwise_iff_get]
  push_neg
  rfl

/-- When the reconstructed descriptor is already registered somewhere, the
check loop of `add_constraint` raises (some check fires at or before the
equal entry). -/
theorem checkAgainst_mem_ne_none (input : _Constraint) (l : List _Constraint)
    (h : input ∈ l) : checkAgainst input l ≠ none := by
  induction l with
  | nil => cases h
  | cons d rest ih =>
    unfold checkAgainst
    split
    · simp
    · split
      · simp
      · split
        · simp
        · rcases List.mem_cons.mp h with h1 | h2
          · exact absurd h1 (by assumption)
          · exact ih h2

/-- If the check loop raises nothing, the reconstructed descriptor is not
among the registered ones. -/
theorem checkAgainst_none_not_mem (input : _Constraint) (l : List _Constraint)
    (h : checkAgainst input l = none) : input ∉ l :=
  fun hm => checkAgainst_mem_ne_none input l hm h

/-- A primary-key input raises `duplicatePrimaryKey` as soon as some
registered descriptor is a primary key, whatever its columns. -/
theorem checkAgainst_pk_dup (input : _Constraint) (l : List _Constraint)
    (hin : input.constraint_name = "primary_key_constraint")
    (h : ∃ d ∈ l, d.constraint_name = "primary_key_constraint") :
    checkAgainst input l = some Violation.duplicatePrimaryKey := by
  induction l with
  | nil =>
    rcases h with ⟨d, hd, _⟩
    cases hd
  | cons d rest ih =>
    unfold checkAgainst
    by_cases hpk : d.constraint_name = "primary_key_constraint"
    · rw [if_pos ⟨hin, hpk⟩]
    · rw [if_neg (fun hc => hpk hc.2)]
      rw [if_neg (fun hc => by rw [hin] at hc; exact absurd hc.1 (by decide))]
      rw [if_neg (fun hc => hpk (by rw [← hc]; exact hin))]
      refine ih ?_
      rcases h with ⟨d2, hd2, hd2pk⟩
      rcases List.mem_cons.mp hd2 with h1 | h2
      · exact absurd (h1 ▸ hd2pk) hpk
      · exact ⟨d2, h2, hd2pk⟩

/-- If the check loop raises nothing on a primary-key input, no registered
descriptor is a primary key. -/
theorem checkAgainst_none_no_pk (input : _Constraint) (l : List _Constraint)
    (h : checkAgainst input l = none)
    (hin : input.constraint_name = "primary_key_constraint") :
    ∀ d ∈ l, d.constraint_name ≠ "primary_key_constraint" := by
  intro d hd hpk
  have := checkAgainst_pk_dup input l hin ⟨d, hd, hpk⟩
  rw [this] at h
  cases h

/-- A primary-key input passes the check loop when no registered descriptor
is a primary key (the other two checks cannot fire on it). -/
theorem checkAgainst_pk_none (input : _Constraint) (l : List _Constraint)
    (hin : input.constraint_name = "primary_key_constraint")
    (h : ∀ d ∈ l, d.constraint_name ≠ "primary_key_constraint") :
    checkAgainst input l = none := by
  induction l with
  | nil => rfl
  | cons d rest ih =>
    unfold checkAgainst
    have hd : d.constraint_name ≠ "primary_key_constraint" := h d (List.mem_cons_self d rest)
    rw [if_neg (fun hc => hd hc.2)]
    rw [if_neg (fun hc => by rw [hin] at hc; exact absurd hc.1 (by decide))]
    rw [if_neg (fun hc => hd (by rw [← hc]; exact hin))]
    exact ih (fun d2 h2 => h d2 (List.mem_cons_of_mem d h2))

/-- A not-null input over a column covered by a registered primary key raises
`primaryKeyNotNullConflict`, provided its own descriptor is not registered
(the full-equality check would fire first on its entry). -/
theorem checkAgainst_nn_conflict (input : _Constraint) (c : String) (l : List _Constraint)
    (hn : input.constraint_name = "not_null_constraint")
    (hcol : input.column_name = some c)
    (hmem : input ∉ l)
    (h : ∃ d ∈ l, d.constraint_name = "primary_key_constraint" ∧ c ∈ d.column_names) :
    checkAgainst input l = some (Violation.primaryKeyNotNullConflict c) := by
  induction l with
  | nil =>
    rcases h with ⟨d, hd, _⟩
    cases hd
  | cons d rest ih =>
    unfold checkAgainst
    rw [if_neg (fun hc => by rw [hn] at hc; exact absurd hc.1 (by decide))]
    by_cases hfire : d.constraint_name = "primary_key_constraint" ∧ c ∈ d.column_names
    · rw [if_pos ⟨hn, hfire.1, by simp [columnNameCovered, hcol, hfire.2]⟩]
      rw [hcol]
      rfl
    · rw [if_neg (fun hc => hfire ⟨hc.2.1, by
        have := hc.2.2
        rw [columnNameCovered, hcol] at this
        simpa using this⟩)]
      rw [if_neg (fun hc => hmem (by rw [hc]; exact List.mem_cons_self d rest))]
      refine ih (fun hm => hmem (List.mem_cons_of_mem d hm)) ?_
      rcases h with ⟨d2, hd2, hd2p⟩
      rcases List.mem_cons.mp hd2 with h1 | h2
      · exact absurd (h1 ▸ hd2p) hfire
      · exact ⟨d2, h2, hd2p⟩

/-- The predicate `checkAgainst` never sees two descriptors for a successful
append: a state reachable through the API keeps at most one primary-key
descriptor. -/
theorem reachable_countP_pk_le_one (s : FileFrame) (h : Reachable s) :
    s._constraint_details.countP
      (fun d => decide (d.constraint_name = "primary_key_constraint")) ≤ 1 := by
  induction h with
  | init t => simp
  | addC s f _ ih =>
    unfold add_constraint
    cases hc : checkAgainst (_get_constraint_closure_function_details f.fn) s._constraint_details with
    | some e => simpa using ih
    | none =>
      simp only [List.countP_append]
      by_cases hpk : (_get_constraint_closure_function_details f.fn).constraint_name
          = "primary_key_constraint"
      · have h0 : s._constraint_details.countP
            (fun d => decide (d.constraint_name = "primary_key_constraint")) = 0 := by
          refine List.countP_eq_zero.mpr (fun d hd => ?_)
          simpa using checkAgainst_none_no_pk _ _ hc hpk d hd
        simp [h0, List.countP_cons, hpk]
      · have h1 : List.countP
            (fun d => decide (d.constraint_name = "primary_key_constraint"))
            [_get_constraint_closure_function_details f.fn] = 0 := by
          simp [List.countP_cons, hpk]
        omega
  | removeC s f _ ih =>
    unfold remove_constraint
    calc (s._constraint_details.filter
            (fun d => decide (d ≠ _get_constraint_closure_function_details f.fn))).countP
            (fun d => decide (d.constraint_name = "primary_key_constraint"))
        ≤ s._constraint_details.countP
            (fun d => decide (d.constraint_name = "primary_key_constraint")) :=
          (List.filter_sublist _).countP_le _
      _ ≤ 1 := ih
  | loadC s d _ ih => simpa [read_dict] using ih

/-- A state reachable through the API never registers two equal
descriptors. -/
theorem reachable_details_nodup (s : FileFrame) (h : Reachable s) :
    s._constraint_details.Nodup := by
  induction h with
  | init t => simp
  | addC s f _ ih =>
    unfold add_constraint
    cases hc : checkAgainst (_get_constraint_closure_function_details f.fn) s._constraint_details with
    | some e => simpa using ih
    | none =>
      have hnm := checkAgainst_none_not_mem _ _ hc
      simp only [List.nodup_append, List.nodup_cons, List.not_mem_nil, not_false_iff,
        List.nodup_nil, and_true, true_and]
      exact ⟨ih, by simpa [List.disjoint_singleton] using hnm⟩
  | removeC s f _ ih =>
    unfold remove_constraint
    exact ih.filter _
  | loadC s d _ ih => simpa [read_dict] using ih

/-- Equality of closure-application results is decidable, so witnesses can be
checked by evaluation. -/
instance : DecidableEq (Except Violation Table) :=
  fun a b =>
    match a, b with
    | Except.ok x, Except.ok y => decidable_of_iff (x = y) (by simp)
    | Except.error x, Except.error y => decidable_of_iff (x = y) (by simp)
    | Except.ok _, Except.error _ => isFalse (by simp)
    | Except.error _, Except.ok _ => isFalse (by simp)

/-! ## Concrete fixtures used by witnesses and counterexamples -/

/-- An empty seed table (the `FileFrame()` default). -/
def T0 : Table := ⟨[], []⟩

/-- The `Age` column of the test-suite table: `[25, 30, 35, 40]`. -/
def sampleAges : Table :=
  ⟨["Age"], [[some (Val.int 25)], [some (Val.int 30)], [some (Val.int 35)], [some (Val.int 40)]]⟩

/-- The `Code` column of the test-suite table: `['1', '1', '2', '3']`. -/
def sampleCodes : Table :=
  ⟨["Code"], [[some (Val.str "1")], [some (Val.str "1")], [some (Val.str "2")], [some (Val.str "3")]]⟩

/-- A single key column whose two rows are both null. -/
def nullPair : Table := ⟨["Id"], [[none], [none]]⟩

/-- A two-column table: `Id = ['001', '001', '003', None]`,
`Name = ['Alice', None, 'Charlie', 'David']`. -/
def sampleIdName : Table :=
  ⟨["Id", "Name"],
   [[some (Val.str "001"), some (Val.str "Alice")],
    [some (Val.str "001"), none],
    [some (Val.str "003"), some (Val.str "Charlie")],
    [none, some (Val.str "David")]]⟩

/-! ## Claim C1: unsupported check operator -/

/-- C1 counterexample: `constraint_check('Age', 'bad', 0)` does not fail at
construction time — it returns an ordinary closure; the
`UnsupportedOperator` violation is raised only when that closure is applied
to a table, i.e. at validation time. -/
theorem c1_builder_succeeds_error_deferred :
    constraint_check "Age" "bad" (Val.int 0) = CFun.check "Age" "bad" (Val.int 0)
    ∧ applyConstraint (CFun.check "Age" "bad" (Val.int 0)) sampleAges
        = Except.error (Violation.unsupportedOperator "bad") := by
  exact ⟨rfl, by decide⟩

/-- C1 amended: for every column, value and operator string whose
upper-cased, whitespace-trimmed form is none of `=`, `>`, `<`, `>=`, `<=`,
`!=`, the builder `constraint_check` succeeds and returns a closure, and that
closure fails with the `UnsupportedOperator` violation when applied to any
table — the error is raised at validation time, not at construction time. -/
theorem c1_check_unsupported_operator (column_name check_condition : String)
    ( check_value : Val) (t : Table)
    (h : pyStrip (pyUpper check_condition) ∉ (["=", ">", "<", ">=", "<=", "!="] : List String)) :
    constraint_check column_name check_condition check_value
      = CFun.check column_name check_condition check_value
    ∧ applyConstraint (constraint_check column_name check_condition check_value) t
        = Except.error (Violation.unsupportedOperator check_condition) := by
  refine ⟨rfl, ?_⟩
  simp only [List.mem_cons, List.not_mem_nil, or_false, not_or] at h
  obtain ⟨h1, h2, h3, h4, h5, h6⟩ := h
  show check_constraint_apply column_name check_condition check_value t = _
  unfold check_constraint_apply
  rw [if_neg h1, if_neg h2, if_neg h3, if_neg h4, if_neg h5, if_neg h6]

/-- C1 witness: the amended theorem applied at the operator `'bad'` over the
sample `Age` table. -/
theorem c1_check_unsupported_operator_witness :
    pyStrip (pyUpper "bad") ∉ (["=", ">", "<", ">=", "<=", "!="] : List String)
    ∧ applyConstraint (constraint_check "Age" "bad" (Val.int 0)) sampleAges
        = Except.error (Violation.unsupportedOperator "bad") :=
  ⟨by decide, (c1_check_unsupported_operator "Age" "bad" (Val.int 0) sampleAges (by decide)).2⟩

/-! ## Claim C2: unique-constraint semantics over nulls -/

/-- C2 counterexample: two rows that are both null in the key column do
trigger `UniqueDuplicate` (pandas `duplicated` treats null as equal to null),
although no two rows share a fully non-null key combination. -/
theorem c2_two_null_rows_collide :
    applyConstraint (CFun.unique ["Id"]) nullPair
        = Except.error (Violation.uniqueDuplicate ["Id"])
    ∧ ¬ ∃ i j : Fin (keyRows nullPair ["Id"]).length, i < j
        ∧ (keyRows nullPair ["Id"]).get i = (keyRows nullPair ["Id"]).get j
        ∧ ∀ cell ∈ (keyRows nullPair ["Id"]).get i, cell ≠ none := by
  exact ⟨by decide, by decide⟩

/-- C2 amended: validating a table against `unique(cols)` fails with the
`UniqueDuplicate` violation if and only if two distinct rows carry the same
combination of values across `cols`, where null compares equal to null; in
particular two rows that are both null in the key column(s) do trigger the
violation. -/
theorem c2_unique_duplicate_iff (cols : List String) (t : Table) :
    applyConstraint (CFun.unique cols) t = Except.error (Violation.uniqueDuplicate cols)
      ↔ ∃ i j : Fin (keyRows t cols).length, i < j
          ∧ (keyRows t cols).get i = (keyRows t cols).get j := by
  rw [← duplicatedAny_iff_exists_pair]
  unfold applyConstraint
  by_cases hd : duplicatedAny (keyRows t cols) <;> simp [hd]

/-! ## Claim C7: primary-key validation order and conditions -/

/-- C7: validating a table against `primary_key(cols)` fails with
`PrimaryKeyNull` exactly when some row is null in some column of `cols`
(so the null check always precedes the duplicate check), and, when no such
null exists, fails with `PrimaryKeyDuplicate` exactly when two distinct rows
share the same values across `cols`. -/
theorem c7_primary_key_null_then_duplicate (cols : List String) (t : Table) :
    (applyConstraint (CFun.primary_key cols) t
        = Except.error (Violation.primaryKeyNull cols) ↔ anyNullInKey t cols = true)
    ∧ (anyNullInKey t cols = false →
        (applyConstraint (CFun.primary_key cols) t
            = Except.error (Violation.primaryKeyDuplicate cols)
          ↔ ∃ i j : Fin (keyRows t cols).length, i < j
              ∧ (keyRows t cols).get i = (keyRows t cols).get j)) := by
  constructor
  · by_cases h : anyNullInKey t cols
    · simp [applyConstraint, h]
    · simp only [Bool.not_eq_true] at h
      by_cases hd : duplicatedAny (keyRows t cols) <;> simp [applyConstraint, h, hd]
  · intro h
    rw [← duplicatedAny_iff_exists_pair]
    by_cases hd : duplicatedAny (keyRows t cols) <;> simp [applyConstraint, h, hd]

/-- C7 witness: on `Code = ['1','1','2','3']` there is no null, and the
duplicate in rows 0 and 1 makes primary-key validation fail with
`PrimaryKeyDuplicate`; on `Id = ['001','001','003',None]` the null wins and
validation fails with `PrimaryKeyNull` despite the duplicate. -/
theorem c7_primary_key_null_then_duplicate_witness :
    applyConstraint (CFun.primary_key ["Code"]) sampleCodes
        = Except.error (Violation.primaryKeyDuplicate ["Code"])
    ∧ applyConstraint (CFun.primary_key ["Id"]) sampleIdName
        = Except.error (Violation.primaryKeyNull ["Id"]) := by
  constructor
  · exact ((c7_primary_key_null_then_duplicate ["Code"] sampleCodes).2 (by decide)).mpr
      ⟨⟨0, by decide⟩, ⟨1, by decide⟩, by decide, by decide⟩
  · exact (c7_primary_key_null_then_duplicate ["Id"] sampleIdName).1.mpr (by decide)

/-! ## Claim C3: remove_constraint matching -/

/-- Removing an element by inequality filter strictly shortens a list that
contains it. -/
theorem length_filter_ne_lt_of_mem {α : Type} [DecidableEq α] (l : List α) (x : α)
    (h : x ∈ l) : (l.filter (fun b => decide (b ≠ x))).length < l.length := by
  induction l with
  | nil => cases h
  | cons a as ih =>
    by_cases hax : a = x
    · subst hax
      simp only [List.filter_cons, decide_eq_true_eq]
      rw [if_neg (by simp)]
      have := List.length_filter_le (fun b => decide (b ≠ a)) as
      simp only [List.length_cons]
      omega
    · rcases List.mem_cons.mp h with h1 | h2
      · exact absurd h1.symm hax
      · simp only [List.filter_cons]
        rw [if_pos (by simpa using hax)]
        simpa using Nat.succ_lt_succ (ih h2)

/-- A registry holding one `not_null('Id')` closure (object id 0), reachable
by a single successful add on a fresh frame. -/
def s3 : FileFrame :=
  ⟨T0, [⟨0, CFun.not_null "Id"⟩],
   [_get_constraint_closure_function_details (CFun.not_null "Id")]⟩

/-- C3 counterexample: removing a closure that is not registered but was
built with the same parameters as a registered one (`not_null('Id')`, a
distinct function object with id 1) is not a no-op: the closure list is kept
but the matching descriptor is deleted by value equality, desynchronising the
two lists.  The state is reachable through the API. -/
theorem c3_remove_unregistered_desyncs :
    (remove_constraint s3 ⟨1, CFun.not_null "Id"⟩)._constraints = s3._constraints
    ∧ (remove_constraint s3 ⟨1, CFun.not_null "Id"⟩)._constraint_details = []
    ∧ s3._constraint_details ≠ []
    ∧ Reachable s3 := by
  refine ⟨by decide, by decide, by decide, ?_⟩
  have h : (add_constraint ⟨T0, [], []⟩ ⟨0, CFun.not_null "Id"⟩).1 = s3 := by decide
  exact h ▸ Reachable.addC _ _ (Reachable.init T0)

/-- C3 amended: `remove_constraint(f)` filters the closure list by closure
identity and the descriptor list by descriptor value equality.  When no
registered closure is identical to `f`, the closure list is unchanged; when
no registered descriptor equals the descriptor rebuilt from `f`, the
descriptor list is unchanged; when neither matches, the call is a full no-op
(and raises no error).  But when `f` is unregistered while its rebuilt
descriptor equals a registered one, the descriptor list strictly shrinks
although the closure list is untouched. -/
theorem c3_remove_by_identity_and_value (s : FileFrame) (f : Closure) :
    ((∀ g ∈ s._constraints, g.id ≠ f.id) →
        (remove_constraint s f)._constraints = s._constraints)
    ∧ (_get_constraint_closure_function_details f.fn ∉ s._constraint_details →
        (remove_constraint s f)._constraint_details = s._constraint_details)
    ∧ ((∀ g ∈ s._constraints, g.id ≠ f.id) →
        _get_constraint_closure_function_details f.fn ∉ s._constraint_details →
        remove_constraint s f = s)
    ∧ (_get_constraint_closure_function_details f.fn ∈ s._constraint_details →
        ((remove_constraint s f)._constraint_details).length
          < s._constraint_details.length) := by
  have e1 : (∀ g ∈ s._constraints, g.id ≠ f.id) →
      (remove_constraint s f)._constraints = s._constraints := by
    intro h
    exact List.filter_eq_self.mpr (fun g hg => by simpa using h g hg)
  have e2 : _get_constraint_closure_function_details f.fn ∉ s._constraint_details →
      (remove_constraint s f)._constraint_details = s._constraint_details := by
    intro h
    exact List.filter_eq_self.mpr (fun d hd => by
      simp only [decide_eq_true_eq]
      exact fun hde => h (hde ▸ hd))
  refine ⟨e1, e2, ?_, ?_⟩
  · intro h1 h2
    have g1 := e1 h1
    have g2 := e2 h2
    cases s with
    | mk df cs ds =>
      simp only [remove_constraint] at g1 g2 ⊢
      rw [g1, g2]
  · intro h
    exact length_filter_ne_lt_of_mem s._constraint_details _ h

/-- A registry holding one `unique(['City'])` closure (object id 0). -/
def s3b : FileFrame :=
  ⟨T0, [⟨0, CFun.unique ["City"]⟩],
   [_get_constraint_closure_function_details (CFun.unique ["City"])]⟩

/-- C3 witness: the amended theorem applied twice — removing an unrelated
unregistered closure is a no-op, while removing an unregistered closure built
with a registered closure's parameters shrinks the descriptor list. -/
theorem c3_remove_by_identity_and_value_witness :
    remove_constraint s3b ⟨1, CFun.not_null "Zip"⟩ = s3b
    ∧ ((remove_constraint s3b ⟨2, CFun.unique ["City"]⟩)._constraint_details).length
        < s3b._constraint_details.length := by
  constructor
  · exact (c3_remove_by_identity_and_value s3b ⟨1, CFun.not_null "Zip"⟩).2.2.1
      (by decide) (by decide)
  · exact (c3_remove_by_identity_and_value s3b ⟨2, CFun.unique ["City"]⟩).2.2.2 (by decide)

/-! ## Claim C9: a failed add mutates nothing -/

/-- C9: whenever `add_constraint` raises (any of the three violations), the
returned state is exactly the input state — the check loop runs to completion
before either list is appended to, so a failed add never partially registers
a constraint. -/
theorem c9_failed_add_leaves_registry (s : FileFrame) (f : Closure)
    (h : (add_constraint s f).2 ≠ none) :
    (add_constraint s f).1 = s := by
  unfold add_constraint at h ⊢
  cases hc : checkAgainst (_get_constraint_closure_function_details f.fn) s._constraint_details with
  | some e => rfl
  | none =>
    rw [hc] at h
    exact absurd rfl h

/-- A registry holding one `not_null('Id')` closure (object id 0), for the
failed-add witness. -/
def s9 : FileFrame :=
  ⟨T0, [⟨0, CFun.not_null "Id"⟩],
   [_get_constraint_closure_function_details (CFun.not_null "Id")]⟩

/-- C9 witness: adding a second `not_null('Id')` closure fails
(`DuplicateConstraint`) and the theorem yields the unchanged state. -/
theorem c9_failed_add_leaves_registry_witness :
    (add_constraint s9 ⟨5, CFun.not_null "Id"⟩).1 = s9 :=
  c9_failed_add_leaves_registry s9 ⟨5, CFun.not_null "Id"⟩ (by decide)

/-! ## Claim C10: a failed load replaces the previous table -/

/-- C10: after any `read_dict` load, the frame's table is exactly the output
of running the registered closures over the newly loaded data (defaults
applied up to a failing constraint), and the result of the load — final
table, frame and surfaced violation alike — does not depend on the table held
before the load: a failed load replaces the previous table rather than
restoring it. -/
theorem c10_load_replaces_table (s : FileFrame) (d t0 : Table) :
    ((read_dict s d).1)._dataframe = (_validate_constraints s._constraints d).1
    ∧ (read_dict s d).2 = (_validate_constraints s._constraints d).2
    ∧ read_dict { s with _dataframe := t0 } d = read_dict s d :=
  ⟨rfl, rfl, rfl⟩

/-! ## Claim C4: at most one primary key -/

/-- C4: once any primary-key descriptor is registered, adding any further
primary-key closure fails with `DuplicatePrimaryKey` whatever columns the new
constraint targets, leaving the state unchanged; consequently every state
reachable through the API holds at most one primary-key descriptor. -/
theorem c4_second_primary_key_rejected (s : FileFrame) (f : Closure) :
    ((∃ cols, f.fn = CFun.primary_key cols) →
      (∃ d ∈ s._constraint_details, d.constraint_name = "primary_key_constraint") →
      add_constraint s f = (s, some Violation.duplicatePrimaryKey))
    ∧ (Reachable s →
        s._constraint_details.countP
          (fun d => decide (d.constraint_name = "primary_key_constraint")) ≤ 1) := by
  constructor
  · rintro ⟨cols, hf⟩ hex
    unfold add_constraint
    rw [hf]
    rw [checkAgainst_pk_dup _ _ rfl hex]
  · exact reachable_countP_pk_le_one s

/-- A registry holding one `primary_key(['A'])` closure (object id 0). -/
def s4 : FileFrame :=
  ⟨T0, [⟨0, CFun.primary_key ["A"]⟩],
   [_get_constraint_closure_function_details (CFun.primary_key ["A"])]⟩

/-- C4 witness: adding `primary_key(['B'])` — columns disjoint from the
registered key — still fails with `DuplicatePrimaryKey`, and the reachable
state `s4` indeed holds at most one primary-key descriptor. -/
theorem c4_second_primary_key_rejected_witness :
    add_constraint s4 ⟨1, CFun.primary_key ["B"]⟩ = (s4, some Violation.duplicatePrimaryKey)
    ∧ s4._constraint_details.countP
        (fun d => decide (d.constraint_name = "primary_key_constraint")) ≤ 1 := by
  constructor
  · exact (c4_second_primary_key_rejected s4 ⟨1, CFun.primary_key ["B"]⟩).1
      ⟨["B"], rfl⟩
      ⟨_get_constraint_closure_function_details (CFun.primary_key ["A"]), by decide, by decide⟩
  · refine (c4_second_primary_key_rejected s4 ⟨1, CFun.primary_key ["B"]⟩).2 ?_
    have h : (add_constraint ⟨T0, [], []⟩ ⟨0, CFun.primary_key ["A"]⟩).1 = s4 := by decide
    exact h ▸ Reachable.addC _ _ (Reachable.init T0)

/-! ## Claim C5: not_null after primary_key -/

/-- C5 amended: with a primary-key descriptor over `cols` registered and
`c ∈ cols`, adding `not_null(c)` fails with `PrimaryKeyNotNullConflict`
provided no descriptor equal to `not_null(c)`'s is already registered (when
one is, the add still fails, but with `DuplicateConstraint` — see the
counterexample); and the check applies only in that order: with no
primary-key descriptor registered, adding `primary_key(cols)` succeeds even
when a registered `not_null` targets a column of `cols`. -/
theorem c5_not_null_after_primary_key (s : FileFrame) (c : String) (cols : List String) (i : Nat) :
    ((∃ d ∈ s._constraint_details,
        d.constraint_name = "primary_key_constraint" ∧ c ∈ d.column_names) →
      _get_constraint_closure_function_details (CFun.not_null c) ∉ s._constraint_details →
      add_constraint s ⟨i, CFun.not_null c⟩
        = (s, some (Violation.primaryKeyNotNullConflict c)))
    ∧ ((∀ d ∈ s._constraint_details, d.constraint_name ≠ "primary_key_constraint") →
      add_constraint s ⟨i, CFun.primary_key cols⟩
        = ({ s with
              _constraints := s._constraints ++ [⟨i, CFun.primary_key cols⟩],
              _constraint_details := s._constraint_details
                ++ [_get_constraint_closure_function_details (CFun.primary_key cols)] },
           none)) := by
  constructor
  · intro hex hmem
    unfold add_constraint
    rw [checkAgainst_nn_conflict (_get_constraint_closure_function_details (CFun.not_null c)) c
      s._constraint_details rfl rfl hmem hex]
  · intro hall
    unfold add_constraint
    rw [checkAgainst_pk_none _ _ rfl hall]

/-- A registry holding `not_null('A')` then `primary_key(['A'])`, in that
order — the only order in which both can be registered. -/
def s5 : FileFrame :=
  ⟨T0, [⟨0, CFun.not_null "A"⟩, ⟨1, CFun.primary_key ["A"]⟩],
   [_get_constraint_closure_function_details (CFun.not_null "A"),
    _get_constraint_closure_function_details (CFun.primary_key ["A"])]⟩

/-- C5 counterexample: in the reachable state `s5` a primary-key descriptor
over `['A']` is registered, yet adding `not_null('A')` fails with
`DuplicateConstraint` — the earlier-listed equal `not_null('A')` descriptor
fires the full-equality check before the loop reaches the primary key — and
not with `PrimaryKeyNotNullConflict` as the claim states. -/
theorem c5_duplicate_wins_over_conflict :
    (∃ d ∈ s5._constraint_details,
        d.constraint_name = "primary_key_constraint" ∧ "A" ∈ d.column_names)
    ∧ add_constraint s5 ⟨2, CFun.not_null "A"⟩
        = (s5, some (Violation.duplicateConstraint "not_null_constraint"))
    ∧ Violation.duplicateConstraint "not_null_constraint"
        ≠ Violation.primaryKeyNotNullConflict "A"
    ∧ Reachable s5 := by
  refine ⟨by decide, by decide, by decide, ?_⟩
  have h1 : (add_constraint ⟨T0, [], []⟩ ⟨0, CFun.not_null "A"⟩).1
      = (⟨T0, [⟨0, CFun.not_null "A"⟩],
          [_get_constraint_closure_function_details (CFun.not_null "A")]⟩ : FileFrame) := by
    decide
  have h2 : (add_constraint
      (⟨T0, [⟨0, CFun.not_null "A"⟩],
        [_get_constraint_closure_function_details (CFun.not_null "A")]⟩ : FileFrame)
      ⟨1, CFun.primary_key ["A"]⟩).1 = s5 := by decide
  exact h2 ▸ Reachable.addC _ _ (h1 ▸ Reachable.addC _ _ (Reachable.init T0))

/-- A registry holding one `primary_key(['City', 'Test'])` closure. -/
def s5w : FileFrame :=
  ⟨T0, [⟨0, CFun.primary_key ["City", "Test"]⟩],
   [_get_constraint_closure_function_details (CFun.primary_key ["City", "Test"])]⟩

/-- A registry holding one `not_null('City')` closure. -/
def s5r : FileFrame :=
  ⟨T0, [⟨0, CFun.not_null "City"⟩],
   [_get_constraint_closure_function_details (CFun.not_null "City")]⟩

/-- C5 witness: the amended theorem applied at `not_null('City')` against a
registered `primary_key(['City', 'Test'])`, and in the reverse order, where
the primary key is accepted. -/
theorem c5_not_null_after_primary_key_witness :
    add_constraint s5w ⟨1, CFun.not_null "City"⟩
        = (s5w, some (Violation.primaryKeyNotNullConflict "City"))
    ∧ add_constraint s5r ⟨1, CFun.primary_key ["City", "Test"]⟩
        = ({ s5r with
              _constraints := s5r._constraints ++ [⟨1, CFun.primary_key ["City", "Test"]⟩],
              _constraint_details := s5r._constraint_details
                ++ [_get_constraint_closure_function_details
                      (CFun.primary_key ["City", "Test"])] },
           none) := by
  constructor
  · exact (c5_not_null_after_primary_key s5w "City" [] 1).1
      ⟨_get_constraint_closure_function_details (CFun.primary_key ["City", "Test"]),
        by decide, by decide, by decide⟩
      (by decide)
  · exact (c5_not_null_after_primary_key s5r "City" ["City", "Test"] 1).2 (by decide)

/-! ## Claim C6: descriptor equality as the duplicate-detection basis -/

/-- Modelled from the spec: two constraint descriptors are equal exactly when
their kind and every field that kind populates (target column or columns,
comparison operator, comparison value, default value) match. -/
def populated_fields_match : CFun → CFun → Prop
  | CFun.not_null a, CFun.not_null b => a = b
  | CFun.primary_key a, CFun.primary_key b => a = b
  | CFun.unique a, CFun.unique b => a = b
  | CFun.check a o v, CFun.check b p w => a = b ∧ o = p ∧ v = w
  | CFun.default_value a v, CFun.default_value b w => a = b ∧ v = w
  | _, _ => False

/-- Ordering discipline of the two conflict checks: whenever a primary-key
descriptor precedes a not-null descriptor in the registry, the not-null
column is not among the primary-key columns.  Every API-reachable registry
satisfies this pairwise (a `not_null` over a covered column is rejected once
the primary key is in). -/
def pkThenNotNullOk (a b : _Constraint) : Prop :=
  a.constraint_name = "primary_key_constraint" →
  b.constraint_name = "not_null_constraint" →
  columnNameCovered b a = false

/-- If the check loop raises nothing on a not-null input, no registered
primary-key descriptor covers its column. -/
theorem checkAgainst_none_nn_not_covered (input : _Constraint) (l : List _Constraint)
    (hn : input.constraint_name = "not_null_constraint") :
    checkAgainst input l = none →
    ∀ d ∈ l, d.constraint_name = "primary_key_constraint" →
      columnNameCovered input d = false := by
  induction l with
  | nil =>
    intro _ d hd
    cases hd
  | cons d rest ih =>
    intro h d2 hd2 hpk
    unfold checkAgainst at h
    by_cases h1 : input.constraint_name = "primary_key_constraint"
        ∧ d.constraint_name = "primary_key_constraint"
    · rw [if_pos h1] at h
      cases h
    · rw [if_neg h1] at h
      by_cases h2 : input.constraint_name = "not_null_constraint"
          ∧ d.constraint_name = "primary_key_constraint"
          ∧ columnNameCovered input d = true
      · rw [if_pos h2] at h
        cases h
      · rw [if_neg h2] at h
        by_cases h3 : input = d
        · rw [if_pos h3] at h
          cases h
        · rw [if_neg h3] at h
          rcases List.mem_cons.mp hd2 with he | hm
          · subst he
            cases hb : columnNameCovered input d2 with
            | false => rfl
            | true => exact absurd ⟨hn, hpk, hb⟩ h2
          · exact ih h d2 hm hpk

/-- Every API-reachable registry satisfies `pkThenNotNullOk` pairwise in
registration order. -/
theorem reachable_pairwise_pk_nn (s : FileFrame) (h : Reachable s) :
    s._constraint_details.Pairwise pkThenNotNullOk := by
  induction h with
  | init t => simp
  | addC s f _ ih =>
    unfold add_constraint
    cases hc : checkAgainst (_get_constraint_closure_function_details f.fn)
        s._constraint_details with
    | some e => simpa using ih
    | none =>
      rw [List.pairwise_append]
      refine ⟨ih, List.pairwise_singleton _ _, ?_⟩
      intro a ha b hb
      rw [List.mem_singleton] at hb
      subst hb
      intro hapk hbnn
      exact checkAgainst_none_nn_not_covered _ _ hbnn hc a ha hapk
  | removeC s f _ ih =>
    unfold remove_constraint
    exact List.Pairwise.sublist (List.filter_sublist _) ih
  | loadC s d _ ih => simpa [read_dict] using ih

/-- An input that is already registered and is not a primary key raises the
`DuplicateConstraint` violation: the first check never fires on it, and the
pairwise ordering discipline keeps the not-null conflict check from firing
before the scan reaches the equal entry. -/
theorem checkAgainst_mem_not_pk (input : _Constraint) (l : List _Constraint)
    (hn : input.constraint_name ≠ "primary_key_constraint")
    (hp : l.Pairwise pkThenNotNullOk)
    (hm : input ∈ l) :
    checkAgainst input l = some (Violation.duplicateConstraint input.constraint_name) := by
  induction l with
  | nil => cases hm
  | cons d rest ih =>
    rw [List.pairwise_cons] at hp
    unfold checkAgainst
    rw [if_neg (fun hc => hn hc.1)]
    by_cases hd : input = d
    · rw [if_neg (fun hc => by
        have h1 := hc.1
        have h2 := hc.2.1
        rw [hd] at h1
        rw [h1] at h2
        exact absurd h2 (by decide))]
      rw [if_pos hd]
    · have hm2 : input ∈ rest := by
        rcases List.mem_cons.mp hm with he | hr
        · exact absurd he hd
        · exact hr
      rw [if_neg (fun hc => by
        have hcov := hp.1 input hm2 hc.2.1 hc.1
        rw [hc.2.2] at hcov
        exact absurd hcov (by decide))]
      rw [if_neg hd]
      exact ih hp.2 hm2

/-- The descriptor rebuilt from any non-primary-key closure does not carry
the primary-key constraint name. -/
theorem cfun_not_pk_name (f : CFun) (h : ∀ cols, f ≠ CFun.primary_key cols) :
    (_get_constraint_closure_function_details f).constraint_name
      ≠ "primary_key_constraint" := by
  cases f with
  | primary_key cols => exact absurd rfl (h cols)
  | not_null c =>
    show ("not_null_constraint" : String) ≠ "primary_key_constraint"
    decide
  | unique cs =>
    show ("unique_constraint" : String) ≠ "primary_key_constraint"
    decide
  | check a b c =>
    show ("check_constraint" : String) ≠ "primary_key_constraint"
    decide
  | default_value a b =>
    show ("default_value_constraint" : String) ≠ "primary_key_constraint"
    decide

/-- C6 amended: reconstructed descriptors are equal exactly when all
populated fields (kind included) match; adding a closure whose reconstructed
descriptor equals a registered one is always rejected with the state
unchanged; the reported violation is `DuplicatePrimaryKey` when the closure
is a primary key (see the counterexample — not `DuplicateConstraint` as the
claim states) and, in every API-reachable registry state, the
`DuplicateConstraint` violation for every other constraint kind; hence no two
registered descriptors of a reachable state are ever fully equal. -/
theorem c6_descriptor_equality_and_duplicates (f g : CFun) (s : FileFrame) (h : Closure) :
    (_get_constraint_closure_function_details f = _get_constraint_closure_function_details g
      ↔ populated_fields_match f g)
    ∧ (_get_constraint_closure_function_details h.fn ∈ s._constraint_details →
        (add_constraint s h).1 = s ∧ (add_constraint s h).2 ≠ none)
    ∧ (_get_constraint_closure_function_details h.fn ∈ s._constraint_details →
        (∃ cols, h.fn = CFun.primary_key cols) →
        (add_constraint s h).2 = some Violation.duplicatePrimaryKey)
    ∧ (_get_constraint_closure_function_details h.fn ∈ s._constraint_details →
        (∀ cols, h.fn ≠ CFun.primary_key cols) →
        Reachable s →
        (add_constraint s h).2
          = some (Violation.duplicateConstraint
              (_get_constraint_closure_function_details h.fn).constraint_name))
    ∧ (Reachable s → s._constraint_details.Nodup) := by
  refine ⟨?_, ?_, ?_, ?_, reachable_details_nodup s⟩
  · cases f <;> cases g <;>
      simp [populated_fields_match, _get_constraint_closure_function_details,
        _Constraint.mk.injEq]
  · intro hm
    have hne := checkAgainst_mem_ne_none _ _ hm
    unfold add_constraint
    cases hc : checkAgainst (_get_constraint_closure_function_details h.fn) s._constraint_details with
    | some e => exact ⟨rfl, by simp⟩
    | none => exact absurd hc hne
  · rintro hm ⟨cols, hfe⟩
    rw [hfe] at hm
    unfold add_constraint
    rw [hfe]
    rw [checkAgainst_pk_dup _ _ rfl
      ⟨_get_constraint_closure_function_details (CFun.primary_key cols), hm, rfl⟩]
  · intro hm hnot hre
    unfold add_constraint
    rw [checkAgainst_mem_not_pk _ _ (cfun_not_pk_name h.fn hnot)
      (reachable_pairwise_pk_nn s hre) hm]

/-- A registry holding one `primary_key(['A'])` closure, for the C6
counterexample. -/
def s6 : FileFrame :=
  ⟨T0, [⟨0, CFun.primary_key ["A"]⟩],
   [_get_constraint_closure_function_details (CFun.primary_key ["A"])]⟩

/-- C6 counterexample: adding a closure whose reconstructed descriptor is
fully equal to the registered `primary_key(['A'])` descriptor fails with
`DuplicatePrimaryKey`, not with `DuplicateConstraint` as the claim states —
the duplicate-primary-key check fires before the equality check. -/
theorem c6_equal_pk_reports_duplicate_primary_key :
    _get_constraint_closure_function_details (CFun.primary_key ["A"]) ∈ s6._constraint_details
    ∧ add_constraint s6 ⟨1, CFun.primary_key ["A"]⟩
        = (s6, some Violation.duplicatePrimaryKey)
    ∧ Violation.duplicatePrimaryKey ≠ Violation.duplicateConstraint "primary_key_constraint"
    ∧ Reachable s6 := by
  refine ⟨by decide, by decide, by decide, ?_⟩
  have h : (add_constraint ⟨T0, [], []⟩ ⟨0, CFun.primary_key ["A"]⟩).1 = s6 := by decide
  exact h ▸ Reachable.addC _ _ (Reachable.init T0)

/-- A registry holding one `check('Age', '>', 0)` closure. -/
def s6w : FileFrame :=
  ⟨T0, [⟨0, CFun.check "Age" ">" (Val.int 0)⟩],
   [_get_constraint_closure_function_details (CFun.check "Age" ">" (Val.int 0))]⟩

/-- C6 witness: the amended theorem applied at a duplicated
`check('Age', '>', 0)` closure over the reachable state `s6w` — the add is
rejected with the state unchanged and reports the `DuplicateConstraint`
violation for the check kind — and at a duplicated `primary_key(['A'])`
closure over `s6`, where the reported violation is `DuplicatePrimaryKey`. -/
theorem c6_descriptor_equality_and_duplicates_witness :
    ((add_constraint s6w ⟨1, CFun.check "Age" ">" (Val.int 0)⟩).1 = s6w
      ∧ (add_constraint s6w ⟨1, CFun.check "Age" ">" (Val.int 0)⟩).2 ≠ none)
    ∧ (add_constraint s6w ⟨1, CFun.check "Age" ">" (Val.int 0)⟩).2
        = some (Violation.duplicateConstraint "check_constraint")
    ∧ (add_constraint s6 ⟨1, CFun.primary_key ["A"]⟩).2
        = some Violation.duplicatePrimaryKey
    ∧ s6w._constraint_details.Nodup
    ∧ (_get_constraint_closure_function_details (CFun.check "Age" ">" (Val.int 0))
          = _get_constraint_closure_function_details (CFun.check "Age" "<" (Val.int 0))
        ↔ populated_fields_match (CFun.check "Age" ">" (Val.int 0))
            (CFun.check "Age" "<" (Val.int 0))) := by
  have hreach : Reachable s6w := by
    have h : (add_constraint ⟨T0, [], []⟩ ⟨0, CFun.check "Age" ">" (Val.int 0)⟩).1 = s6w := by
      decide
    exact h ▸ Reachable.addC _ _ (Reachable.init T0)
  refine ⟨?_, ?_, ?_, ?_, ?_⟩
  · exact (c6_descriptor_equality_and_duplicates (CFun.not_null "x") (CFun.not_null "x") s6w
      ⟨1, CFun.check "Age" ">" (Val.int 0)⟩).2.1 (by decide)
  · exact (c6_descriptor_equality_and_duplicates (CFun.not_null "x") (CFun.not_null "x") s6w
      ⟨1, CFun.check "Age" ">" (Val.int 0)⟩).2.2.2.1 (by decide)
      (fun cols hcc => by cases hcc) hreach
  · exact (c6_descriptor_equality_and_duplicates (CFun.not_null "x") (CFun.not_null "x") s6
      ⟨1, CFun.primary_key ["A"]⟩).2.2.1 (by decide) ⟨["A"], rfl⟩
  · exact (c6_descriptor_equality_and_duplicates (CFun.not_null "x") (CFun.not_null "x") s6w
      ⟨1, CFun.check "Age" ">" (Val.int 0)⟩).2.2.2.2 hreach
  · exact (c6_descriptor_equality_and_duplicates (CFun.check "Age" ">" (Val.int 0))
      (CFun.check "Age" "<" (Val.int 0)) s6w ⟨1, CFun.check "Age" ">" (Val.int 0)⟩).1

/-! ## Claim C8: validation order, first failure, no rollback -/

/-- C8: the validation engine applies the registered closures in insertion
order; with the closures before `c` succeeding and producing table `t2`
(default-value mutations included), a failure of `c` on `t2` aborts the run —
the closures after `c` are never applied — and surfaces exactly the error
`c` raised, with the frame's table left at `t2`: mutations already applied by
earlier closures are not rolled back. -/
theorem c8_validate_order_first_failure (cs1 cs2 : List Closure) (c : Closure)
    (t t2 : Table) (e : Violation)
    (h1 : _validate_constraints cs1 t = (t2, none))
    (h2 : applyConstraint c.fn t2 = Except.error e) :
    _validate_constraints (cs1 ++ c :: cs2) t = (t2, some e) := by
  induction cs1 generalizing t with
  | nil =>
    simp only [_validate_constraints, Prod.mk.injEq] at h1
    obtain ⟨rfl, -⟩ := h1
    simp only [List.nil_append, _validate_constraints]
    rw [h2]
  | cons d rest ih =>
    simp only [_validate_constraints] at h1
    cases happ : applyConstraint d.fn t with
    | ok t3 =>
      rw [happ] at h1
      simp only [List.cons_append, _validate_constraints]
      rw [happ]
      exact ih t3 h1
    | error e2 =>
      rw [happ] at h1
      have h3 : (some e2 : Option Violation) = none := congrArg Prod.snd h1
      cases h3

/-- Table `sampleIdName` after `default_value('Id', '004')` has healed the null in
row 3 of `Id`; the null in `Name` remains. -/
def sampleIdNameFilled : Table :=
  ⟨["Id", "Name"],
   [[some (Val.str "001"), some (Val.str "Alice")],
    [some (Val.str "001"), none],
    [some (Val.str "003"), some (Val.str "Charlie")],
    [some (Val.str "004"), some (Val.str "David")]]⟩

/-- C8 witness: running `default_value('Id','004')`, `not_null('Name')`,
`unique(['Id'])` in order over `sampleIdName`: the default heals `Id`, the
not-null check then fails on `Name`, the unique check never runs, and the
table keeps the healed `Id` column. -/
theorem c8_validate_order_first_failure_witness :
    _validate_constraints
      [⟨0, CFun.default_value "Id" (Val.str "004")⟩,
       ⟨1, CFun.not_null "Name"⟩,
       ⟨2, CFun.unique ["Id"]⟩]
      sampleIdName
      = (sampleIdNameFilled, some (Violation.notNull "Name")) :=
  c8_validate_order_first_failure
    [⟨0, CFun.default_value "Id" (Val.str "004")⟩]
    [⟨2, CFun.unique ["Id"]⟩]
    ⟨1, CFun.not_null "Name"⟩
    sampleIdName sampleIdNameFilled (Violation.notNull "Name")
    (by decide) (by decide)

end EtlFileTools
